import Mathlib

/-!
Shallow embedding of the CEP-Go-APIs account / certificate client
(package circular_enterprise_apis, second draft in src/pkg/account.go,
together with internal/utils/utils.go and pkg/certificate/certificate.go).

Go strings are byte sequences; they are modelled as lists of natural
numbers below 256.  External collaborators (HTTP transport, JSON
decoding of reply bodies, the secp256k1 ECDSA primitive, the wall
clock) are modelled as explicit inputs at the call boundary; everything
the Go code itself computes (hex encoding and decoding, SHA-256, JSON
field inspection of decoded reply maps, state updates) is computed by
the definitions themselves.
-/

/-- Go strings are byte sequences. -/
abbrev GoStr := List Nat

/-- UTF-8 encoding of one character, used to translate Go source string
literals into byte sequences. -/
def utf8Bytes (c : Char) : List Nat :=
  let n := c.toNat
  if n < 128 then [n]
  else if n < 2048 then [192 + n / 64, 128 + n % 64]
  else if n < 65536 then [224 + n / 4096, 128 + n / 64 % 64, 128 + n % 64]
  else [240 + n / 262144, 128 + n / 4096 % 64, 128 + n / 64 % 64, 128 + n % 64]

/-- Byte sequence of a Go string literal (Go source literals are UTF-8). -/
def gs (s : String) : GoStr := (s.data.map utf8Bytes).flatten

/-- Lower-case hex digit table of encoding/hex: index v yields the byte
of the character hextable[v]. -/
def hexDigitChar (v : Nat) : Nat := if v < 10 then 48 + v else 87 + v

/-- hex.EncodeToString from encoding/hex: every byte v becomes the two
characters hextable[v >> 4], hextable[v & 0x0f]. -/
def hexEncode (bs : GoStr) : GoStr :=
  (bs.map (fun b => [hexDigitChar (b / 16), hexDigitChar (b % 16)])).flatten

/-- fromHexChar of encoding/hex: value of one hex digit, accepting
0-9, a-f and A-F. -/
def hexDigitVal (c : Nat) : Option Nat :=
  if 48 ≤ c ∧ c ≤ 57 then some (c - 48)
  else if 97 ≤ c ∧ c ≤ 102 then some (c - 87)
  else if 65 ≤ c ∧ c ≤ 70 then some (c - 55)
  else none

/-- hex.DecodeString from encoding/hex: decodes digit pairs, failing on
an odd length or on any non-hex character. -/
def hexDecode : GoStr → Option GoStr
  | [] => some []
  | [_] => none
  | c1 :: c2 :: rest =>
    match hexDigitVal c1, hexDigitVal c2, hexDecode rest with
    | some hi, some lo, some bs => some ((16 * hi + lo) :: bs)
    | _, _, _ => none

/-- strings.ReplaceAll(s, "\x00", "") used by HexToString: removes every
NUL byte. -/
def stripNul (bs : GoStr) : GoStr := bs.filter (fun b => b ≠ 0)

/-- utils.HexFix: removes a leading "0x" prefix (checked on the
lower-cased string, so "0X" is also removed). -/
def HexFix (word : GoStr) : GoStr :=
  match word with
  | c1 :: c2 :: rest =>
    if c1 = 48 ∧ (c2 = 120 ∨ c2 = 88) then rest else c1 :: c2 :: rest
  | _ => word

/-- utils.StringToHex: hex encoding of the UTF-8 bytes of a string. -/
def StringToHex (s : GoStr) : GoStr := hexEncode s

/-- utils.HexToString: strips an optional 0x prefix, hex-decodes, and
removes every NUL byte from the decoded bytes; fails on invalid hex. -/
def HexToString (hexStr : GoStr) : Except GoStr GoStr :=
  match hexDecode (HexFix hexStr) with
  | none => .error (gs ("invalid hex string"))
  | some bs => .ok (stripNul bs)

/-- pkg/certificate: a CIRCULAR certificate. -/
structure Certificate where
  Data : GoStr
  PreviousTxID : GoStr
  PreviousBlock : GoStr
  Version : GoStr

/-- certificate.NewCertificate. -/
def NewCertificate (version : GoStr) : Certificate :=
  { Data := [], PreviousTxID := [], PreviousBlock := [], Version := version }

/-- Certificate.SetData: stores the hex encoding of the data bytes. -/
def Certificate.SetData (c : Certificate) (data : GoStr) : Certificate :=
  { c with Data := hexEncode data }

/-- Certificate.GetData: hex-decodes the stored data; fails on invalid
hex content. -/
def Certificate.GetData (c : Certificate) : Except GoStr GoStr :=
  match hexDecode c.Data with
  | none => .error (gs ("failed to decode certificate data"))
  | some bs => .ok bs

/-- Truncation to a 32-bit word. -/
def w32 (x : Nat) : Nat := x % 4294967296

/-- Right rotation of a 32-bit word by n positions. -/
def rotr (n x : Nat) : Nat := (x >>> n) ||| w32 (x <<< (32 - n))

/-- The eight SHA-256 working variables. -/
structure Sha256St where
  a : Nat
  b : Nat
  c : Nat
  d : Nat
  e : Nat
  f : Nat
  g : Nat
  h : Nat

/-- SHA-256 initial hash value. -/
def sha256Init : Sha256St :=
  { a := 1779033703, b := 3144134277, c := 1013904242, d := 2773480762,
    e := 1359893119, f := 2600822924, g := 528734635, h := 1541459225 }

/-- SHA-256 round constants. -/
def sha256K : List Nat :=
  [1116352408, 1899447441, 3049323471, 3921009573,
   961987163, 1508970993, 2453635748, 2870763221,
   3624381080, 310598401, 607225278, 1426881987,
   1925078388, 2162078206, 2614888103, 3248222580,
   3835390401, 4022224774, 264347078, 604807628,
   770255983, 1249150122, 1555081692, 1996064986,
   2554220882, 2821834349, 2952996808, 3210313671,
   3336571891, 3584528711, 113926993, 338241895,
   666307205, 773529912, 1294757372, 1396182291,
   1695183700, 1986661051, 2177026350, 2456956037,
   2730485921, 2820302411, 3259730800, 3345764771,
   3516065817, 3600352804, 4094571909, 275423344,
   430227734, 506948616, 659060556, 883997877,
   958139571, 1322822218, 1537002063, 1747873779,
   1955562222, 2024104815, 2227730452, 2361852424,
   2428436474, 2756734187, 3204031479, 3329325298]

/-- Big-endian packing of bytes into 32-bit words. -/
def toW32s : List Nat → List Nat
  | b0 :: b1 :: b2 :: b3 :: rest => (((b0 * 256 + b1) * 256 + b2) * 256 + b3) :: toW32s rest
  | _ => []

/-- Big-endian bytes of a 32-bit word. -/
def wordBytes (w : Nat) : List Nat :=
  [w / 16777216 % 256, w / 65536 % 256, w / 256 % 256, w % 256]

/-- SHA-256 padding: append 0x80, zero bytes up to 56 mod 64, then the
bit length as a 64-bit big-endian integer. -/
def sha256Pad (msg : List Nat) : List Nat :=
  let L := msg.length
  let z := (119 - L % 64) % 64
  let bl := 8 * L
  msg ++ 128 :: List.replicate z 0 ++
    [bl / 72057594037927936 % 256, bl / 281474976710656 % 256,
     bl / 1099511627776 % 256, bl / 4294967296 % 256,
     bl / 16777216 % 256, bl / 65536 % 256, bl / 256 % 256, bl % 256]

/-- Message-schedule extension: pushes n further words onto the first 16. -/
def sha256Extend : Nat → Array Nat → Array Nat
  | 0, ws => ws
  | n + 1, ws =>
    let i := ws.size
    let w15 := ws.getD (i - 15) 0
    let w2 := ws.getD (i - 2) 0
    let s0 := rotr 7 w15 ^^^ rotr 18 w15 ^^^ (w15 >>> 3)
    let s1 := rotr 17 w2 ^^^ rotr 19 w2 ^^^ (w2 >>> 10)
    sha256Extend n (ws.push (w32 (ws.getD (i - 16) 0 + s0 + ws.getD (i - 7) 0 + s1)))

/-- One SHA-256 round for a given schedule word and round constant. -/
def sha256Round (st : Sha256St) (wk : Nat × Nat) : Sha256St :=
  let s1 := rotr 6 st.e ^^^ rotr 11 st.e ^^^ rotr 25 st.e
  let ch := (st.e &&& st.f) ^^^ ((st.e ^^^ 4294967295) &&& st.g)
  let t1 := w32 (st.h + s1 + ch + wk.2 + wk.1)
  let s0 := rotr 2 st.a ^^^ rotr 13 st.a ^^^ rotr 22 st.a
  let mj := (st.a &&& st.b) ^^^ (st.a &&& st.c) ^^^ (st.b &&& st.c)
  let t2 := w32 (s0 + mj)
  { a := w32 (t1 + t2), b := st.a, c := st.b, d := st.c,
    e := w32 (st.d + t1), f := st.e, g := st.f, h := st.g }

/-- Compression of one 64-byte chunk. -/
def sha256Block (hs : Sha256St) (chunk : List Nat) : Sha256St :=
  let ws := sha256Extend 48 (toW32s chunk).toArray
  let st := (ws.toList.zip sha256K).foldl sha256Round hs
  { a := w32 (hs.a + st.a), b := w32 (hs.b + st.b), c := w32 (hs.c + st.c),
    d := w32 (hs.d + st.d), e := w32 (hs.e + st.e), f := w32 (hs.f + st.f),
    g := w32 (hs.g + st.g), h := w32 (hs.h + st.h) }

/-- Iterated compression over a given number of 64-byte chunks. -/
def sha256Blocks : Nat → Sha256St → List Nat → Sha256St
  | 0, hs, _ => hs
  | n + 1, hs, msg => sha256Blocks n (sha256Block hs (msg.take 64)) (msg.drop 64)

/-- SHA-256 digest (32 bytes) of a byte sequence, as computed by
crypto/sha256 Sum256. -/
def sha256 (msg : List Nat) : List Nat :=
  let p := sha256Pad msg
  let hs := sha256Blocks (p.length / 64) sha256Init p
  wordBytes hs.a ++ wordBytes hs.b ++ wordBytes hs.c ++ wordBytes hs.d ++
    wordBytes hs.e ++ wordBytes hs.f ++ wordBytes hs.g ++ wordBytes hs.h

/-- Decimal digits of a natural number, as bytes. -/
def natDec (n : Nat) : GoStr := (Nat.toDigits 10 n).map Char.toNat

/-- fmt.Sprintf("%d", i) for a Go integer. -/
def intDec (i : Int) : GoStr :=
  if i < 0 then 45 :: natDec i.natAbs else natDec i.natAbs

/-- JSON values, the shape produced by json.Unmarshal into a Go
interface value (numbers restricted to the integers the claims
inspect). -/
inductive JValue where
  | jnull : JValue
  | jbool : Bool → JValue
  | jnum : Int → JValue
  | jstr : GoStr → JValue
  | jarr : List JValue → JValue
  | jobj : List (GoStr × JValue) → JValue

/-- A decoded JSON object, as a Go map from field names to values. -/
abbrev JMap := List (GoStr × JValue)

/-- Go map indexing m[key] on a decoded JSON object. -/
def lookupJ : JMap → GoStr → Option JValue
  | [], _ => none
  | (k, v) :: rest, key => if k = key then some v else lookupJ rest key

/-- Constant LibVersion of pkg/circular_enterprise_apis.go. -/
def LibVersion : GoStr := gs ("1.0.13")

/-- Constant NetworkURL of pkg/circular_enterprise_apis.go. -/
def NetworkURL : GoStr := gs ("https://circularlabs.io/network/getNAG?network=")

/-- Constant DefaultChain of pkg/circular_enterprise_apis.go. -/
def DefaultChain : GoStr :=
  gs ("0x8a20baa40c45dc5055aeb26197c203e576ef389d9acb171bd62da11dc5ad72b2")

/-- Constant DefaultNAG of pkg/circular_enterprise_apis.go. -/
def DefaultNAG : GoStr := gs ("https://nag.circularlabs.io/NAG.php?cep=")

/-- CEPAccount holds the data for a Circular Enterprise Protocol
account (second draft in src/pkg/account.go, lines 433-446). -/
structure CEPAccount where
  Address : GoStr
  PublicKey : GoStr
  Info : Option JValue
  CodeVersion : GoStr
  NAGURL : GoStr
  NetworkNode : GoStr
  Blockchain : GoStr
  LatestTxID : GoStr
  Nonce : Int
  IntervalSec : Int
  NetworkURLField : GoStr

/-- NewCEPAccount factory. -/
def NewCEPAccount : CEPAccount :=
  { Address := [], PublicKey := [], Info := none, CodeVersion := LibVersion,
    NAGURL := DefaultNAG, NetworkNode := [], Blockchain := DefaultChain,
    LatestTxID := [], Nonce := 0, IntervalSec := 2,
    NetworkURLField := NetworkURL }

/-- CEPAccount.Open: sets the account address, rejecting an empty one. -/
def CEPAccount.Open (a : CEPAccount) (address : GoStr) :
    Except GoStr Unit × CEPAccount :=
  if address = [] then (.error (gs ("invalid address format")), a)
  else (.ok (), { a with Address := address })

/-- CEPAccount.Close: clears the session fields (address, public key,
info, gateway URL, network node, blockchain, latest id, nonce,
interval). -/
def CEPAccount.Close (a : CEPAccount) : CEPAccount :=
  { a with
    Address := [], PublicKey := [], Info := none, NAGURL := [],
    NetworkNode := [], Blockchain := [], LatestTxID := [], Nonce := 0,
    IntervalSec := 0 }

/-- CEPAccount.SetNetwork: the external GetNAG resolution outcome is the
input; on success the gateway URL and network node are stored. -/
def CEPAccount.SetNetwork (a : CEPAccount) (network : GoStr)
    (resolved : Except GoStr GoStr) : Except GoStr GoStr × CEPAccount :=
  match resolved with
  | .error e => (.error (gs ("failed to get NAG URL: ") ++ e), a)
  | .ok nagURL => (.ok nagURL, { a with NAGURL := nagURL, NetworkNode := network })

/-- CEPAccount.SetBlockchain. -/
def CEPAccount.SetBlockchain (a : CEPAccount) (chain : GoStr) : CEPAccount :=
  { a with Blockchain := chain }

/-- Body of a wallet-nonce reply after json decoding into the typed
response struct of UpdateAccount; decoding is the external boundary. -/
inductive UpdateBody where
  | malformed : UpdateBody
  | parsed : Int → Int → UpdateBody

/-- Outcome of the HTTP POST performed by UpdateAccount. -/
inductive UpdateReply where
  | transportError : GoStr → UpdateReply
  | httpResp : Nat → UpdateBody → UpdateReply

/-- CEPAccount.UpdateAccount: fetches the wallet nonce; on a 200 status
with result code 200 the nonce becomes the reported nonce plus one. -/
def CEPAccount.UpdateAccount (a : CEPAccount) (reply : UpdateReply) :
    Except GoStr Unit × CEPAccount :=
  if a.Address = [] then (.error (gs ("account is not open")), a)
  else
    match reply with
    | .transportError e => (.error (gs ("http post request failed: ") ++ e), a)
    | .httpResp status body =>
      if status ≠ 200 then (.error (gs ("network request failed with status")), a)
      else
        match body with
        | .malformed => (.error (gs ("failed to decode response body")), a)
        | .parsed result nonce =>
          if result = 200 then (.ok (), { a with Nonce := nonce + 1 })
          else (.error (gs ("failed to update account: invalid response from server")), a)

/-- CEPAccount.signData: decodes the private key hex, then applies the
deterministic secp256k1 ECDSA primitive Sg (modelling Serialize of
ecdsa.Sign with the parsed key) to the key bytes and the SHA-256 digest
of the message, and hex-encodes the signature bytes. -/
def CEPAccount.signData (a : CEPAccount) (Sg : GoStr → GoStr → GoStr)
    (message privateKeyHex : GoStr) : Except GoStr GoStr :=
  if a.Address = [] then .error (gs ("account is not open"))
  else
    match hexDecode (HexFix privateKeyHex) with
    | none => .error (gs ("invalid private key hex string"))
    | some keyBytes => .ok (hexEncode (Sg keyBytes (sha256 message)))

/-- The inner payload object of SubmitCertificate after json.Marshal:
keys are emitted in sorted order (Action before Data) and the values
need no escaping, so the marshalled bytes are this exact string. -/
def payloadJson (pdata : GoStr) : GoStr :=
  gs ("\x7b\"Action\":\"CP_CERTIFICATE\",\"Data\":\"") ++ StringToHex pdata ++ gs ("\"\x7d")

/-- The transaction id computed by SubmitCertificate: the hex-encoded
SHA-256 digest of blockchain, from-address, to-address (both the account
address), payload, decimal nonce and timestamp, concatenated in that
order. -/
def computeTxID (a : CEPAccount) (pdata timestamp : GoStr) : GoStr :=
  let payload := StringToHex (payloadJson pdata)
  let strToHash := HexFix a.Blockchain ++ HexFix a.Address ++ HexFix a.Address ++
    payload ++ intDec a.Nonce ++ timestamp
  hexEncode (sha256 strToHash)

/-- Body of an add-transaction reply after json.Unmarshal into a Go map;
a top-level non-object body also fails that unmarshal and counts as
malformed. -/
inductive SubmitBody where
  | malformed : SubmitBody
  | obj : JMap → SubmitBody

/-- Outcome of the HTTP POST performed by SubmitCertificate. -/
inductive SubmitReply where
  | transportError : GoStr → SubmitReply
  | httpResp : Nat → SubmitBody → SubmitReply

/-- Error value built by the failure branch of SubmitCertificate from
the decoded reply map. -/
def submitFailMsg (m : JMap) : GoStr :=
  match lookupJ m (gs ("Response")) with
  | some (.jstr s) => gs ("certificate submission failed: ") ++ s
  | _ => gs ("certificate submission failed with non-200 result code")

/-- Whether a reply to SubmitCertificate is an HTTP 200 whose decoded
body declares result code 200. -/
def submitSuccess : SubmitReply → Bool
  | .httpResp 200 (.obj m) =>
    match lookupJ m (gs ("Result")) with
    | some (.jnum n) => n == 200
    | _ => false
  | _ => false

/-- CEPAccount.SubmitCertificate: builds the payload, computes the
transaction id, signs it, posts the envelope (the post outcome is the
reply input), and on a success reply records the locally computed id
and increments the nonce. -/
def CEPAccount.SubmitCertificate (a : CEPAccount) (Sg : GoStr → GoStr → GoStr)
    (pdata privateKeyHex timestamp : GoStr) (reply : SubmitReply) :
    Except GoStr Unit × CEPAccount :=
  if a.Address = [] then (.error (gs ("account is not open")), a)
  else
    let id := computeTxID a pdata timestamp
    match a.signData Sg id privateKeyHex with
    | .error e => (.error (gs ("failed to sign data: ") ++ e), a)
    | .ok _signature =>
      match reply with
      | .transportError e => (.error (gs ("failed to submit certificate: ") ++ e), a)
      | .httpResp status body =>
        if status ≠ 200 then (.error (gs ("network returned an error")), a)
        else
          match body with
          | .malformed => (.error (gs ("failed to decode response JSON")), a)
          | .obj m =>
            match lookupJ m (gs ("Result")) with
            | some (.jnum n) =>
              if n = 200 then
                (.ok (), { a with LatestTxID := id, Nonce := a.Nonce + 1 })
              else (.error (submitFailMsg m), a)
            | _ => (.error (submitFailMsg m), a)

/-- Body of a get-transaction reply after json decoding into a Go map. -/
inductive QueryBody where
  | malformed : QueryBody
  | obj : JMap → QueryBody

/-- Outcome of the HTTP POST performed by getTransactionByID. -/
inductive QueryReply where
  | transportError : GoStr → QueryReply
  | httpResp : Nat → QueryBody → QueryReply

/-- CEPAccount.getTransactionByID: requires only the gateway URL; posts
the query (the outcome is the reply input) and returns the decoded map. -/
def CEPAccount.getTransactionByID (a : CEPAccount)
    (_transactionID : GoStr) (_startBlock _endBlock : Int) (reply : QueryReply) :
    Except GoStr JMap :=
  if a.NAGURL = [] then .error (gs ("network is not set"))
  else
    match reply with
    | .transportError e => .error (gs ("http post request failed: ") ++ e)
    | .httpResp status body =>
      if status ≠ 200 then .error (gs ("network request failed with status"))
      else
        match body with
        | .malformed => .error (gs ("failed to decode transaction JSON"))
        | .obj m => .ok m

/-- Outcome of one polling tick of GetTransactionOutcome: some payload
when the query succeeded, its result code is 200, its Response field is
an object and that object carries a string Status other than Pending;
none on every other outcome (query error, pending, missing fields). -/
def tickPayload (a : CEPAccount) (txID : GoStr) (reply : QueryReply) : Option JMap :=
  match a.getTransactionByID txID 0 10 reply with
  | .error _ => none
  | .ok m =>
    match lookupJ m (gs ("Result")) with
    | some (.jnum n) =>
      if n = 200 then
        match lookupJ m (gs ("Response")) with
        | some (.jobj resp) =>
          match lookupJ resp (gs ("Status")) with
          | some (.jstr s) => if s = gs ("Pending") then none else some resp
          | _ => none
        | _ => none
      else none
    | _ => none

/-- The ticker and context deadline of GetTransactionOutcome: the ticker
fires at multiples of the interval and the context cancels at the
timeout, so the number of ticks the loop can consume is the number of
positive multiples of intervalSec below timeoutSec, fixed by the two
durations alone. -/
def ticksBefore (timeoutSec intervalSec : Nat) : Nat :=
  (timeoutSec - 1) / intervalSec

/-- The select loop of GetTransactionOutcome over a stream of per-tick
poll outcomes, bounded by the number of ticks the deadline admits. -/
def pollLoop (a : CEPAccount) (txID : GoStr) (polls : Nat → QueryReply) :
    Nat → Except GoStr JMap
  | 0 => .error (gs ("timeout exceeded while waiting for transaction outcome"))
  | fuel + 1 =>
    match tickPayload a txID (polls 0) with
    | some resp => .ok resp
    | none => pollLoop a txID (fun j => polls (j + 1)) fuel

/-- CEPAccount.GetTransactionOutcome: polls for the outcome of a
transaction until a non-pending status or the context deadline. -/
def CEPAccount.GetTransactionOutcome (a : CEPAccount) (txID : GoStr)
    (timeoutSec intervalSec : Nat) (polls : Nat → QueryReply) :
    Except GoStr JMap :=
  if a.NAGURL = [] then .error (gs ("network is not set"))
  else pollLoop a txID polls (ticksBefore timeoutSec intervalSec)

/-- One invocation of a session operation together with the inputs its
external collaborators supply during the call. -/
inductive AccountOp where
  | opOpen : GoStr → AccountOp
  | opSetNetwork : GoStr → Except GoStr GoStr → AccountOp
  | opSetBlockchain : GoStr → AccountOp
  | opUpdateAccount : UpdateReply → AccountOp
  | opSubmitCertificate : (GoStr → GoStr → GoStr) → GoStr → GoStr → GoStr →
      SubmitReply → AccountOp
  | opGetTransactionByID : GoStr → Int → Int → QueryReply → AccountOp
  | opGetTransactionOutcome : GoStr → Nat → Nat → (Nat → QueryReply) → AccountOp
  | opClose : AccountOp

/-- State transition of one session operation (the queries return data
but do not touch the session state). -/
def stepAccount (op : AccountOp) (a : CEPAccount) : CEPAccount :=
  match op with
  | .opOpen address => (a.Open address).2
  | .opSetNetwork network resolved => (a.SetNetwork network resolved).2
  | .opSetBlockchain chain => a.SetBlockchain chain
  | .opUpdateAccount reply => (a.UpdateAccount reply).2
  | .opSubmitCertificate Sg pdata key ts reply =>
    (a.SubmitCertificate Sg pdata key ts reply).2
  | .opGetTransactionByID _ _ _ _ => a
  | .opGetTransactionOutcome _ _ _ _ => a
  | .opClose => a.Close

/-- Whether an Except value is a success, as the Go nil-error check. -/
def exOk {ε α : Type} : Except ε α → Bool
  | .ok _ => true
  | .error _ => false

/-- A concrete stand-in for the deterministic ECDSA primitive. -/
def sigPrim : GoStr → GoStr → GoStr := fun keyBytes hash => keyBytes ++ hash

/-- A sample open, networked account. -/
def acctNet : CEPAccount :=
  { NewCEPAccount with Address := gs ("ab"), NAGURL := [117] }

/-- A sample account sharing the address of acctNet but differing in
every other mutable field. -/
def acctNet2 : CEPAccount :=
  { NewCEPAccount with
    Address := gs ("ab"), NAGURL := [118], Nonce := 9, LatestTxID := gs ("ff") }

/-- A sample account with a gateway URL but no address. -/
def acctNoAddr : CEPAccount := { NewCEPAccount with NAGURL := [117] }

/-- A sample success reply to a query. -/
def qReplyOk : QueryReply := .httpResp 200 (.obj [(gs ("Result"), .jnum 200)])

/-- A sample success reply to a submission. -/
def sReplyOk : SubmitReply :=
  .httpResp 200 (.obj [(gs ("Result"), .jnum 200), (gs ("TxID"), .jstr (gs ("server-id")))])

/-- A sample wallet-nonce success reply reporting nonce 4. -/
def updOk : UpdateReply := .httpResp 200 (.parsed 200 4)

/-- An account reached from NewCEPAccount by Open and a successful
UpdateAccount, leaving it with nonce 5. -/
def reachedAcct : CEPAccount :=
  stepAccount (.opUpdateAccount updOk) (stepAccount (.opOpen (gs ("ab"))) NewCEPAccount)

/-- A query reply whose transaction status carries the not-found
sentinel used by other drafts of this repository. -/
def nfReply : QueryReply :=
  .httpResp 200 (.obj [(gs ("Result"), .jnum 200),
    (gs ("Response"), .jobj [(gs ("Status"), .jstr (gs ("Transaction Not Found")))])])

/-- A query reply whose transaction status is still Pending. -/
def pendReply : QueryReply :=
  .httpResp 200 (.obj [(gs ("Result"), .jnum 200),
    (gs ("Response"), .jobj [(gs ("Status"), .jstr (gs ("Pending")))])])

/-- A query reply whose transaction status is Confirmed. -/
def confReply : QueryReply :=
  .httpResp 200 (.obj [(gs ("Result"), .jnum 200),
    (gs ("Response"), .jobj [(gs ("Status"), .jstr (gs ("Confirmed")))])])

theorem hexDigitVal_hexDigitChar (d : Nat) (hd : d < 16) :
    hexDigitVal (hexDigitChar d) = some d := by
  interval_cases d <;> rfl

theorem hexDecode_hexEncode (bs : GoStr) (h : ∀ b ∈ bs, b < 256) :
    hexDecode (hexEncode bs) = some bs := by
  induction bs with
  | nil => rfl
  | cons b rest ih =>
    have hb : b < 256 := h b (by simp)
    have hrest : ∀ x ∈ rest, x < 256 := fun x hx => h x (by simp [hx])
    show hexDecode (hexDigitChar (b / 16) :: hexDigitChar (b % 16) :: hexEncode rest) =
      some (b :: rest)
    rw [hexDecode, hexDigitVal_hexDigitChar (b / 16) (by omega),
      hexDigitVal_hexDigitChar (b % 16) (by omega), ih hrest]
    show some ((16 * (b / 16) + b % 16) :: rest) = some (b :: rest)
    have hbb : 16 * (b / 16) + b % 16 = b := by omega
    rw [hbb]

theorem HexFix_hexEncode (bs : GoStr) : HexFix (hexEncode bs) = hexEncode bs := by
  cases bs with
  | nil => rfl
  | cons b rest =>
    show HexFix (hexDigitChar (b / 16) :: hexDigitChar (b % 16) :: hexEncode rest) = _
    rw [HexFix, if_neg]
    · rfl
    · rintro ⟨-, h2⟩
      have : b % 16 < 16 := by omega
      unfold hexDigitChar at h2
      split at h2 <;> omega

theorem stripNul_eq_self (s : GoStr) : stripNul s = s ↔ 0 ∉ s := by
  unfold stripNul
  rw [List.filter_eq_self]
  constructor
  · intro h h0
    have := h 0 h0
    simp at this
  · intro h0 a ha
    simp only [decide_eq_true_eq]
    intro e
    exact h0 (e ▸ ha)

/-- C8: for every byte sequence b, including the empty sequence and the
bytes of multi-byte Unicode content, SetData followed by GetData on a
Certificate returns exactly b with no error. -/
theorem claim_c8_setData_getData_roundtrip (c : Certificate) (b : GoStr)
    (hb : ∀ x ∈ b, x < 256) : (c.SetData b).GetData = .ok b := by
  unfold Certificate.SetData Certificate.GetData
  simp only [hexDecode_hexEncode b hb]

/-- C8 witness: the round trip at the UTF-8 bytes of a multi-byte
character followed by a NUL byte, and at the empty sequence. -/
theorem claim_c8_witness :
    ((NewCertificate []).SetData [206, 177, 0]).GetData = .ok [206, 177, 0] :=
  claim_c8_setData_getData_roundtrip (NewCertificate []) [206, 177, 0] (by decide)

/-- C10: for every valid hex string, HexToString returns the decoded
bytes with every NUL byte removed, and the round trip through
StringToHex restores exactly the inputs free of NUL bytes. -/
theorem claim_c10_hexToString_nul :
    (∀ h b, hexDecode (HexFix h) = some b → HexToString h = .ok (stripNul b)) ∧
    (∀ s, (∀ x ∈ s, x < 256) →
      (HexToString (StringToHex s) = .ok s ↔ 0 ∉ s)) := by
  constructor
  · intro h b hd
    unfold HexToString
    rw [hd]
  · intro s hs
    unfold HexToString StringToHex
    rw [HexFix_hexEncode, hexDecode_hexEncode s hs]
    rw [show (Except.ok (stripNul s) = (.ok s : Except GoStr GoStr)) ↔ stripNul s = s from
      by constructor <;> intro h <;> [injection h; rw [h]]]
    exact stripNul_eq_self s

/-- C10 witness: hex 3000 decodes to a digit and a NUL byte and the NUL
is stripped, and the round trip holds at a NUL-free input. -/
theorem claim_c10_witness :
    HexToString (gs ("3000")) = .ok [48] ∧
    (HexToString (StringToHex [104, 105]) = .ok [104, 105] ↔ 0 ∉ [104, 105]) :=
  ⟨claim_c10_hexToString_nul.1 (gs ("3000")) [48, 0] rfl,
   claim_c10_hexToString_nul.2 [104, 105] (by decide)⟩

/-- C7: the signing operation is deterministic: it is a pure function of
the message, the key and the shared deterministic ECDSA primitive, so
two calls on equal inputs, even from session states differing in every
other field, return the identical hex signature string. -/
theorem claim_c7_signData_deterministic (Sg : GoStr → GoStr → GoStr)
    (a a' : CEPAccount) (message privateKeyHex : GoStr)
    (h : a.Address = a'.Address) :
    a.signData Sg message privateKeyHex = a'.signData Sg message privateKeyHex := by
  unfold CEPAccount.signData
  rw [h]

/-- C7 witness: two calls on equal message and key from two states with
the same address but different nonces and latest ids agree. -/
theorem claim_c7_witness :
    acctNet.signData sigPrim (gs ("msg")) (gs ("aa")) =
      acctNet2.signData sigPrim (gs ("msg")) (gs ("aa")) :=
  claim_c7_signData_deterministic sigPrim acctNet acctNet2 (gs ("msg")) (gs ("aa")) rfl

/-- C1: for every session state and payload, the transaction id that
SubmitCertificate computes and records is the hex-encoded SHA-256 digest
of the raw concatenation of the hex-normalized chain id, the
hex-normalized from-address, the hex-normalized to-address (the same
address), the payload (hex encoding of the JSON of the action and the
hex-encoded certificate bytes), the decimal nonce and the formatted
timestamp, in this exact order. -/
theorem claim_c1_submit_id_derivation (a : CEPAccount) (Sg : GoStr → GoStr → GoStr)
    (pdata privateKeyHex timestamp : GoStr) (m : JMap) (kb : GoStr)
    (hopen : ¬ a.Address = [])
    (hkey : hexDecode (HexFix privateKeyHex) = some kb)
    (hres : lookupJ m (gs ("Result")) = some (.jnum 200)) :
    (a.SubmitCertificate Sg pdata privateKeyHex timestamp
        (.httpResp 200 (.obj m))).2.LatestTxID =
      hexEncode (sha256 (HexFix a.Blockchain ++ HexFix a.Address ++ HexFix a.Address ++
        hexEncode (gs ("\x7b\"Action\":\"CP_CERTIFICATE\",\"Data\":\"") ++
          hexEncode pdata ++ gs ("\"\x7d")) ++
        intDec a.Nonce ++ timestamp)) := by
  unfold CEPAccount.SubmitCertificate CEPAccount.signData
  simp only [if_neg hopen, hkey, hres]
  rfl

/-- C1 witness: the recorded id at a concrete state, payload, key and
timestamp equals the digest of the concatenation. -/
theorem claim_c1_witness :
    (acctNet.SubmitCertificate sigPrim (gs ("hello")) (gs ("aa"))
        (gs ("2025:01:01-00:00:00")) sReplyOk).2.LatestTxID =
      hexEncode (sha256 (HexFix acctNet.Blockchain ++ HexFix acctNet.Address ++
        HexFix acctNet.Address ++
        hexEncode (gs ("\x7b\"Action\":\"CP_CERTIFICATE\",\"Data\":\"") ++
          hexEncode (gs ("hello")) ++ gs ("\"\x7d")) ++
        intDec acctNet.Nonce ++ gs ("2025:01:01-00:00:00"))) :=
  claim_c1_submit_id_derivation acctNet sigPrim (gs ("hello")) (gs ("aa"))
    (gs ("2025:01:01-00:00:00"))
    [(gs ("Result"), .jnum 200), (gs ("TxID"), .jstr (gs ("server-id")))]
    [170] (by decide) rfl rfl

/-- C2: on an HTTP 200 reply whose declared result code is 200,
SubmitCertificate reports success, increments the nonce by exactly one,
and stores the locally computed id as the latest transaction id, for
every decoded reply body, so no server-supplied id is ever stored. -/
theorem claim_c2_submit_success_updates (a : CEPAccount) (Sg : GoStr → GoStr → GoStr)
    (pdata privateKeyHex timestamp : GoStr) (m : JMap) (kb : GoStr)
    (hopen : ¬ a.Address = [])
    (hkey : hexDecode (HexFix privateKeyHex) = some kb)
    (hres : lookupJ m (gs ("Result")) = some (.jnum 200)) :
    (a.SubmitCertificate Sg pdata privateKeyHex timestamp
        (.httpResp 200 (.obj m))).1 = .ok () ∧
    (a.SubmitCertificate Sg pdata privateKeyHex timestamp
        (.httpResp 200 (.obj m))).2.Nonce = a.Nonce + 1 ∧
    (a.SubmitCertificate Sg pdata privateKeyHex timestamp
        (.httpResp 200 (.obj m))).2.LatestTxID = computeTxID a pdata timestamp := by
  unfold CEPAccount.SubmitCertificate CEPAccount.signData
  simp only [if_neg hopen, hkey, hres]
  exact ⟨rfl, rfl, rfl⟩

/-- C2 witness: at a concrete state the success reply yields nonce 1 and
the locally computed id, not the id the server supplied. -/
theorem claim_c2_witness :
    (acctNet.SubmitCertificate sigPrim (gs ("hello")) (gs ("aa"))
        (gs ("x")) sReplyOk).1 = .ok () ∧
    (acctNet.SubmitCertificate sigPrim (gs ("hello")) (gs ("aa"))
        (gs ("x")) sReplyOk).2.Nonce = acctNet.Nonce + 1 ∧
    (acctNet.SubmitCertificate sigPrim (gs ("hello")) (gs ("aa"))
        (gs ("x")) sReplyOk).2.LatestTxID = computeTxID acctNet (gs ("hello")) (gs ("x")) :=
  claim_c2_submit_success_updates acctNet sigPrim (gs ("hello")) (gs ("aa")) (gs ("x"))
    [(gs ("Result"), .jnum 200), (gs ("TxID"), .jstr (gs ("server-id")))]
    [170] (by decide) rfl rfl

/-- C3: on every reply that is not an HTTP 200 carrying a decoded body
with result code 200 (transport failure, non-200 status, malformed
body, or failure result code), SubmitCertificate returns an error and
leaves the nonce unchanged. -/
theorem claim_c3_submit_failure_atomic (a : CEPAccount) (Sg : GoStr → GoStr → GoStr)
    (pdata privateKeyHex timestamp : GoStr) (reply : SubmitReply)
    (hfail : submitSuccess reply = false) :
    exOk (a.SubmitCertificate Sg pdata privateKeyHex timestamp reply).1 = false ∧
    (a.SubmitCertificate Sg pdata privateKeyHex timestamp reply).2.Nonce = a.Nonce := by
  unfold CEPAccount.SubmitCertificate
  by_cases h0 : a.Address = []
  · simp [h0, exOk]
  · simp only [if_neg h0]
    cases hs : a.signData Sg (computeTxID a pdata timestamp) privateKeyHex with
    | error e => exact ⟨rfl, rfl⟩
    | ok s =>
      cases reply with
      | transportError e => exact ⟨rfl, rfl⟩
      | httpResp status body =>
        by_cases hst : status = 200
        · subst hst
          cases body with
          | malformed => exact ⟨rfl, rfl⟩
          | obj m =>
            have hfail2 : (match lookupJ m (gs ("Result")) with
                | some (JValue.jnum n) => n == 200
                | _ => false) = false := hfail
            cases hl : lookupJ m (gs ("Result")) with
            | none => simp [hl, exOk]
            | some v =>
              cases v with
              | jnum n =>
                rw [hl] at hfail2
                have hn : ¬ n = 200 := by
                  simpa using hfail2
                simp [hl, hn, exOk]
              | jnull => simp [hl, exOk]
              | jbool b => simp [hl, exOk]
              | jstr s2 => simp [hl, exOk]
              | jarr xs => simp [hl, exOk]
              | jobj fs => simp [hl, exOk]
        · simp [hst, exOk]

/-- C3 witness: a 200 reply with failure result code 118 yields an error
and an unchanged nonce at a concrete state. -/
theorem claim_c3_witness :
    exOk (acctNet.SubmitCertificate sigPrim (gs ("hello")) (gs ("aa")) (gs ("x"))
        (.httpResp 200 (.obj [(gs ("Result"), .jnum 118),
          (gs ("Response"), .jstr (gs ("oops")))]))).1 = false ∧
    (acctNet.SubmitCertificate sigPrim (gs ("hello")) (gs ("aa")) (gs ("x"))
        (.httpResp 200 (.obj [(gs ("Result"), .jnum 118),
          (gs ("Response"), .jstr (gs ("oops")))]))).2.Nonce = acctNet.Nonce :=
  claim_c3_submit_failure_atomic acctNet sigPrim (gs ("hello")) (gs ("aa")) (gs ("x"))
    (.httpResp 200 (.obj [(gs ("Result"), .jnum 118),
      (gs ("Response"), .jstr (gs ("oops")))])) rfl

/-- C9 (amended): each gateway-dependent operation fails fast, before
consuming any gateway reply and leaving the session unchanged, on the
specific precondition it checks: UpdateAccount and SubmitCertificate on
an unset address, the transaction queries on an unset gateway URL; the
two error messages are distinct. -/
theorem claim_c9_failfast_preconditions :
    (∀ (a : CEPAccount) (reply : UpdateReply), a.Address = [] →
      a.UpdateAccount reply = (.error (gs ("account is not open")), a)) ∧
    (∀ (a : CEPAccount) (Sg : GoStr → GoStr → GoStr) (pdata key ts : GoStr)
      (reply : SubmitReply), a.Address = [] →
      a.SubmitCertificate Sg pdata key ts reply =
        (.error (gs ("account is not open")), a)) ∧
    (∀ (a : CEPAccount) (txID : GoStr) (s e : Int) (reply : QueryReply),
      a.NAGURL = [] →
      a.getTransactionByID txID s e reply = .error (gs ("network is not set"))) ∧
    (∀ (a : CEPAccount) (txID : GoStr) (t i : Nat) (polls : Nat → QueryReply),
      a.NAGURL = [] →
      a.GetTransactionOutcome txID t i polls = .error (gs ("network is not set"))) ∧
    gs ("account is not open") ≠ gs ("network is not set") := by
  refine ⟨?_, ?_, ?_, ?_, by decide⟩
  · intro a reply h
    simp [CEPAccount.UpdateAccount, h]
  · intro a Sg pdata key ts reply h
    simp [CEPAccount.SubmitCertificate, h]
  · intro a txID s e reply h
    simp [CEPAccount.getTransactionByID, h]
  · intro a txID t i polls h
    simp [CEPAccount.GetTransactionOutcome, h]

/-- C9 witness: at concrete closed sessions the four operations return
the precondition errors with the state untouched. -/
theorem claim_c9_witness :
    NewCEPAccount.UpdateAccount updOk = (.error (gs ("account is not open")), NewCEPAccount) ∧
    ((NewCEPAccount.Close).getTransactionByID (gs ("ab")) 0 10 qReplyOk =
      .error (gs ("network is not set"))) :=
  ⟨claim_c9_failfast_preconditions.1 NewCEPAccount updOk rfl,
   claim_c9_failfast_preconditions.2.2.1 NewCEPAccount.Close (gs ("ab")) 0 10 qReplyOk rfl⟩

/-- C9 counterexample: the claim as stated is false: with the address
unset but the gateway URL set, getTransactionByID performs its query
and can succeed, returning data with no error at all. -/
theorem claim_c9_counterexample :
    acctNoAddr.Address = [] ∧
    acctNoAddr.getTransactionByID (gs ("ab")) 0 10 qReplyOk =
      .ok [(gs ("Result"), .jnum 200)] :=
  ⟨rfl, rfl⟩

theorem submit_nonce_ge (a : CEPAccount) (Sg : GoStr → GoStr → GoStr)
    (pdata key ts : GoStr) (reply : SubmitReply) :
    a.Nonce ≤ (a.SubmitCertificate Sg pdata key ts reply).2.Nonce := by
  unfold CEPAccount.SubmitCertificate
  by_cases h0 : a.Address = []
  · simp [h0]
  · simp only [if_neg h0]
    cases a.signData Sg (computeTxID a pdata ts) key with
    | error e => simp
    | ok s =>
      cases reply with
      | transportError e => simp
      | httpResp status body =>
        by_cases hst : status = 200
        · subst hst
          cases body with
          | malformed => simp
          | obj m =>
            simp only [ne_eq, not_true_eq_false, if_false]
            cases lookupJ m (gs ("Result")) with
            | none => simp
            | some v =>
              cases v <;> (simp; try (split <;> simp))
        · simp [hst]

/-- C4 (amended): across all session operations, the nonce can decrease
only through Close (which resets the whole session, nonce included) or
through UpdateAccount (which overwrites the nonce with the
gateway-reported value plus one); every other operation - Open,
SetNetwork, SetBlockchain, SubmitCertificate and the transaction
queries - leaves the nonce unchanged or increases it. -/
theorem claim_c4_nonce_decrease_only_close_update (a : CEPAccount) (op : AccountOp)
    (h : (stepAccount op a).Nonce < a.Nonce) :
    op = .opClose ∨ ∃ r, op = .opUpdateAccount r := by
  cases op with
  | opClose => exact .inl rfl
  | opUpdateAccount r => exact .inr ⟨r, rfl⟩
  | opOpen address =>
    exfalso
    simp only [stepAccount, CEPAccount.Open] at h
    split at h <;> simp at h
  | opSetNetwork network resolved =>
    exfalso
    simp only [stepAccount, CEPAccount.SetNetwork] at h
    cases resolved <;> simp at h
  | opSetBlockchain chain =>
    exfalso
    revert h
    simp [stepAccount, CEPAccount.SetBlockchain]
  | opSubmitCertificate Sg pdata key ts reply =>
    exfalso
    have := submit_nonce_ge a Sg pdata key ts reply
    simp only [stepAccount] at h
    omega
  | opGetTransactionByID txID s e reply =>
    exfalso
    simp [stepAccount] at h
  | opGetTransactionOutcome txID t i polls =>
    exfalso
    simp [stepAccount] at h

/-- C4 witness: the amended statement applied at a session reached from
NewCEPAccount by Open and a successful UpdateAccount, on which Close
does decrease the nonce. -/
theorem claim_c4_witness :
    AccountOp.opClose = AccountOp.opClose ∨
      ∃ r, AccountOp.opClose = AccountOp.opUpdateAccount r :=
  claim_c4_nonce_decrease_only_close_update reachedAcct .opClose (by decide)

/-- C4 counterexample: the claim as stated is false: on the reachable
session with nonce 5 (NewCEPAccount after Open and a successful
UpdateAccount reporting nonce 4), the Close operation decreases the
nonce (to zero). -/
theorem claim_c4_counterexample :
    (stepAccount .opClose reachedAcct).Nonce < reachedAcct.Nonce := by
  decide

theorem pollLoop_all_none (a : CEPAccount) (txID : GoStr) (fuel : Nat)
    (polls : Nat → QueryReply)
    (h : ∀ k, tickPayload a txID (polls k) = none) :
    pollLoop a txID polls fuel =
      .error (gs ("timeout exceeded while waiting for transaction outcome")) := by
  induction fuel generalizing polls with
  | zero => rfl
  | succ n ih =>
    rw [pollLoop, h 0]
    exact ih (fun j => polls (j + 1)) (fun k => h (k + 1))

theorem pollLoop_first_some (a : CEPAccount) (txID : GoStr) (k : Nat) :
    ∀ (fuel : Nat) (polls : Nat → QueryReply) (resp : JMap), k < fuel →
      (∀ j, j < k → tickPayload a txID (polls j) = none) →
      tickPayload a txID (polls k) = some resp →
      pollLoop a txID polls fuel = .ok resp := by
  induction k with
  | zero =>
    intro fuel polls resp hk hprev hc
    cases fuel with
    | zero => omega
    | succ n =>
      rw [pollLoop, hc]
  | succ k ih =>
    intro fuel polls resp hk hprev hc
    cases fuel with
    | zero => omega
    | succ n =>
      rw [pollLoop, hprev 0 (by omega)]
      exact ih n (fun j => polls (j + 1)) resp (by omega)
        (fun j hj => hprev (j + 1) (by omega)) hc

/-- C5: for every poll-outcome stream in which no tick ever confirms
(every reply pending, not found, or a query error) and every positive
interval, GetTransactionOutcome terminates with the timeout error; the
number of ticks it can consume is fixed by the timeout and the interval
alone (the context deadline), independent of the gateway behaviour. -/
theorem claim_c5_polling_timeout (a : CEPAccount) (txID : GoStr)
    (timeoutSec intervalSec : Nat) (polls : Nat → QueryReply)
    (hnag : ¬ a.NAGURL = []) (_hint : 1 ≤ intervalSec)
    (h : ∀ k, tickPayload a txID (polls k) = none) :
    a.GetTransactionOutcome txID timeoutSec intervalSec polls =
      .error (gs ("timeout exceeded while waiting for transaction outcome")) := by
  unfold CEPAccount.GetTransactionOutcome
  rw [if_neg hnag]
  exact pollLoop_all_none a txID (ticksBefore timeoutSec intervalSec) polls h

/-- C5 witness: a gateway that reports Pending on every tick makes a
concrete run time out. -/
theorem claim_c5_witness :
    acctNet.GetTransactionOutcome (gs ("tx")) 5 2 (fun _ => pendReply) =
      .error (gs ("timeout exceeded while waiting for transaction outcome")) :=
  claim_c5_polling_timeout acctNet (gs ("tx")) 5 2 (fun _ => pendReply)
    (by decide) (by decide) (fun _ => rfl)

/-- C6 (amended): on the first tick whose query succeeds with result
code 200 and a Response object whose Status is a present string other
than Pending, the poller returns that response payload; every other
tick outcome (query error, pending status, or the not-found sentinel
reply whose Response is a string and so carries no Status) keeps it
polling.  The code does not inspect the Status value beyond the Pending
comparison, so a Status carrying a not-found sentinel also confirms. -/
theorem claim_c6_first_confirming_tick (a : CEPAccount) (txID : GoStr)
    (timeoutSec intervalSec : Nat) (polls : Nat → QueryReply) (k : Nat) (resp : JMap)
    (hnag : ¬ a.NAGURL = [])
    (hk : k < ticksBefore timeoutSec intervalSec)
    (hprev : ∀ j, j < k → tickPayload a txID (polls j) = none)
    (hc : tickPayload a txID (polls k) = some resp) :
    a.GetTransactionOutcome txID timeoutSec intervalSec polls = .ok resp := by
  unfold CEPAccount.GetTransactionOutcome
  rw [if_neg hnag]
  exact pollLoop_first_some a txID k (ticksBefore timeoutSec intervalSec) polls resp
    hk hprev hc

/-- C6 witness: a run whose first tick is pending and whose second tick
reports a Confirmed status returns the second payload. -/
theorem claim_c6_witness :
    acctNet.GetTransactionOutcome (gs ("tx")) 10 2
        (fun j => if j = 0 then pendReply else confReply) =
      .ok [(gs ("Status"), .jstr (gs ("Confirmed")))] :=
  claim_c6_first_confirming_tick acctNet (gs ("tx")) 10 2
    (fun j => if j = 0 then pendReply else confReply) 1
    [(gs ("Status"), .jstr (gs ("Confirmed")))]
    (by decide) (by decide)
    (fun j hj => by
      interval_cases j
      rfl)
    rfl

/-- C6 counterexample: the claim as stated is false: a tick whose
reported Status is the not-found sentinel string does not keep the
poller in Polling, it confirms immediately and returns that payload. -/
theorem claim_c6_counterexample :
    acctNet.GetTransactionOutcome (gs ("tx")) 10 2 (fun _ => nfReply) =
      .ok [(gs ("Status"), .jstr (gs ("Transaction Not Found")))] := by
  rfl
